import Mathlib

/-!
Verification development for the ticket bot (src/bot.py).

The tickets table and the ticket_counters table (SCHEMA_SQL) are embedded as
plain Lean structures; each DB statement of the bot becomes a pure function on
a `Store` value.  Timestamps are natural numbers (seconds).  The enum-like TEXT
columns (`kind`, `status`, `priority`) are kept as the strings the code stores.
Platform side effects (channel edits, message sends) do not touch the Store;
where an effect matters to a property it is recorded in an explicit effect
list, and platform failures that gate a DB write are modelled as boolean
parameters.
-/

namespace TicketBot

/-- One row of the `tickets` table (SCHEMA_SQL in src/bot.py). -/
structure Ticket where
  channel_id : Nat
  guild_id : Nat
  owner_id : Nat
  kind : String
  ticket_num : Nat
  status : String
  created_at : Nat
  last_activity : Nat
  claimed_by : Option Nat
  priority : Option String
  first_staff_response_seconds : Option Nat
  control_message_id : Option Nat
  last_footer_text : Option String
  last_topic_text : Option String
deriving Repr, DecidableEq

/-- The durable state: the `ticket_counters` table (an association list from
kind to next_num) and the `tickets` table. -/
structure Store where
  counters : List (String × Nat)
  tickets : List Ticket
deriving Repr, DecidableEq

/-- Lookup in the counters table (SELECT by primary key `kind`). -/
def counterLookup : List (String × Nat) → String → Option Nat
  | [], _ => none
  | (k0, n0) :: rest, k => if k0 = k then some n0 else counterLookup rest k

/-- Overwrite the `next_num` of an existing counter row. -/
def counterSet : List (String × Nat) → String → Nat → List (String × Nat)
  | [], _, _ => []
  | (k0, n0) :: rest, k, v =>
    if k0 = k then (k0, v) :: counterSet rest k v else (k0, n0) :: counterSet rest k v

/-- `get_next_ticket_num` (src/bot.py:124): the single SQL statement
`INSERT ... ON CONFLICT (kind) DO UPDATE SET next_num = next_num + 1
RETURNING next_num` — atomic in the database, so it is one step here:
a fresh kind gets the row `(kind, 1)` and returns 1, an existing kind is
incremented and the new value returned. -/
def get_next_ticket_num (kind : String) (s : Store) : Nat × Store :=
  match counterLookup s.counters kind with
  | none => (1, { s with counters := s.counters ++ [(kind, 1)] })
  | some n => (n + 1, { s with counters := counterSet s.counters kind (n + 1) })

/-- The counter value currently stored for a kind (0 when the row is absent,
matching the fact that the first returned number is 1). -/
def counter_val (s : Store) (k : String) : Nat :=
  (counterLookup s.counters k).getD 0

/-- Run a sequence of `get_next_ticket_num` calls; the list of kinds is the
interleaving order of the (atomic) calls.  Returns each call's kind paired
with the number it received. -/
def run_counters : List String → Store → List (String × Nat) × Store
  | [], s => ([], s)
  | k :: rest, s =>
    let p := get_next_ticket_num k s
    let q := run_counters rest p.2
    ((k, p.1) :: q.1, q.2)

/-- The numbers handed out to callers of a given kind, in call order. -/
def results_for (k : String) (out : List (String × Nat)) : List Nat :=
  out.filterMap (fun p => if p.1 = k then some p.2 else none)

/-- `SELECT ... FROM tickets WHERE channel_id=$1` (primary-key lookup). -/
def get_ticket (s : Store) (cid : Nat) : Option Ticket :=
  s.tickets.find? (fun t => t.channel_id == cid)

/-- `UPDATE tickets SET ... WHERE channel_id=$1`: apply `f` to every row whose
`channel_id` matches (the primary key makes it at most one in practice). -/
def update_ticket (s : Store) (cid : Nat) (f : Ticket → Ticket) : Store :=
  { s with tickets := s.tickets.map (fun t => if t.channel_id == cid then f t else t) }

/-- The uniqueness check of TicketPanelSelect.callback (src/bot.py:554):
`SELECT channel_id FROM tickets WHERE guild_id=$1 AND owner_id=$2 AND kind=$3
AND status='open'`. -/
def find_open_ticket (s : Store) (g u : Nat) (k : String) : Option Ticket :=
  s.tickets.find? (fun t =>
    t.guild_id == g && t.owner_id == u && t.kind == k && t.status == "open")

/-- `INSERT INTO tickets(channel_id, guild_id, owner_id, kind, ticket_num,
status) VALUES (..., 'open')` (src/bot.py:593).  The primary key on
`channel_id` makes a duplicate insert fail, which is returned as `none`. -/
def create_ticket (s : Store) (cid g u : Nat) (k : String) (num : Nat) (now : Nat) :
    Option Store :=
  if s.tickets.any (fun t => t.channel_id == cid) then none
  else some { s with tickets := s.tickets ++
    [{ channel_id := cid, guild_id := g, owner_id := u, kind := k,
       ticket_num := num, status := "open", created_at := now,
       last_activity := now, claimed_by := none, priority := none,
       first_staff_response_seconds := none, control_message_id := none,
       last_footer_text := none, last_topic_text := none }] }

/-- How many rows are open for one (guild, owner, kind) — the quantity the
code's comment "Only 1 open ticket per user per category" promises is ≤ 1. -/
def open_count (s : Store) (g u : Nat) (k : String) : Nat :=
  (s.tickets.filter (fun t =>
    t.guild_id == g && t.owner_id == u && t.kind == k && t.status == "open")).length

/-- One open-ticket request: the panel interaction's data, plus the channel id
and control-message id the platform will allocate if creation happens. -/
structure OpenReq where
  guild_id : Nat
  owner_id : Nat
  kind : String
  new_channel_id : Nat
  control_msg_id : Nat
  now : Nat
deriving Repr, DecidableEq

/-- Outcome of an open-ticket request. -/
inductive OpenOutcome
  | alreadyOpen (cid : Nat)
  | created (cid : Nat)
  | conflict
deriving Repr, DecidableEq

/-- Progress of one open-ticket handler.  `start`: nothing done yet.
`checked`: the uniqueness SELECT found no open ticket and the handler is
suspended at one of the awaits that follow it (get_next_ticket_num,
create_text_channel, INSERT are all awaited, so other handlers can run
here).  `finished`: the handler completed with an outcome. -/
inductive OpenPhase
  | start
  | checked
  | finished (o : OpenOutcome)
deriving Repr, DecidableEq

/-- One atomic step of TicketPanelSelect.callback (src/bot.py:544).  The
handler is split at the suspension point after the uniqueness check: step one
is the SELECT, step two is everything after it (counter bump, channel
creation, INSERT, control-message send and control_message_id UPDATE).
Keeping the writes in one step only removes interleavings, so every behaviour
exhibited by this model is a behaviour of the code. -/
def open_step (s : Store) (r : OpenReq) : OpenPhase → Store × OpenPhase
  | .start =>
    match find_open_ticket s r.guild_id r.owner_id r.kind with
    | some t => (s, .finished (.alreadyOpen t.channel_id))
    | none => (s, .checked)
  | .checked =>
    let p := get_next_ticket_num r.kind s
    match create_ticket p.2 r.new_channel_id r.guild_id r.owner_id r.kind p.1 r.now with
    | none => (p.2, .finished .conflict)
    | some s2 =>
      (update_ticket s2 r.new_channel_id
        (fun t => { t with control_message_id := some r.control_msg_id }),
       .finished (.created r.new_channel_id))
  | .finished o => (s, .finished o)

/-- Run two open-ticket handlers under a schedule: `true` advances the first
request by one step, `false` the second. -/
def run_two (r1 r2 : OpenReq) (sched : List Bool) (s : Store) :
    Store × OpenPhase × OpenPhase :=
  match sched with
  | [] => (s, .start, .start)
  | _ =>
    sched.foldl
      (fun acc pick =>
        if pick then
          let p := open_step acc.1 r1 acc.2.1
          (p.1, p.2, acc.2.2)
        else
          let p := open_step acc.1 r2 acc.2.2
          (p.1, acc.2.1, p.2))
      (s, OpenPhase.start, OpenPhase.start)

/-- An open-ticket request run to completion with no interleaving. -/
def open_atomic (s : Store) (r : OpenReq) : Store :=
  let p := open_step s r .start
  match p.2 with
  | .checked => (open_step p.1 r .checked).1
  | _ => p.1

/-- Result reported to the interaction by the claim button handler. -/
inductive ClaimResult
  | notStaff
  | notOpen
  | alreadyClaimed
  | claimed
deriving Repr, DecidableEq

/-- TicketControlView._claim_callback (src/bot.py:488): staff gate, then
`SELECT ... WHERE channel_id=$1`; "Ticket not found or not open." when the row
is missing or not open; "This ticket is already claimed." when claimed_by is
non-null; otherwise `UPDATE tickets SET claimed_by=$1`. -/
def claim_callback (s : Store) (actor_id : Nat) (actor_is_staff : Bool) (cid : Nat) :
    Store × ClaimResult :=
  if !actor_is_staff then (s, .notStaff)
  else
    match get_ticket s cid with
    | none => (s, .notOpen)
    | some row =>
      if row.status ≠ "open" then (s, .notOpen)
      else if row.claimed_by.isSome then (s, .alreadyClaimed)
      else (update_ticket s cid (fun t => { t with claimed_by := some actor_id }), .claimed)

/-- Result reported to the interaction by the priority select handler. -/
inductive PriorityResult
  | notStaff
  | notOpen
  | updated
deriving Repr, DecidableEq

/-- PrioritySelect.callback (src/bot.py:419): staff gate, row lookup, reject
when missing or not open, else `UPDATE tickets SET priority=$1`.  The channel
rename and control-message refresh that follow are platform effects and write
nothing to the store. -/
def priority_callback (s : Store) (actor_is_staff : Bool) (cid : Nat) (level : String) :
    Store × PriorityResult :=
  if !actor_is_staff then (s, .notStaff)
  else
    match get_ticket s cid with
    | none => (s, .notOpen)
    | some row =>
      if row.status ≠ "open" then (s, .notOpen)
      else (update_ticket s cid (fun t => { t with priority := some level }), .updated)

/-- on_message (src/bot.py:819).  Messages with no guild or from a bot author
return before any DB access; otherwise the ticket row is read, last_activity
is updated unconditionally, and first_staff_response_seconds is set from the
row read — only when the row is open, the author is staff, and the field is
still null — to the whole seconds elapsed since created_at. -/
def on_message (s : Store) (has_guild is_bot is_staff : Bool) (cid now : Nat) : Store :=
  if !has_guild || is_bot then s
  else
    match get_ticket s cid with
    | none => s
    | some row =>
      let s1 := update_ticket s cid (fun t => { t with last_activity := now })
      if row.status = "open" ∧ is_staff = true ∧ row.first_staff_response_seconds = none then
        update_ticket s1 cid
          (fun t => { t with first_staff_response_seconds := some (now - row.created_at) })
      else s1

/-- First DB write of close_ticket_flow (src/bot.py:771):
`UPDATE tickets SET status='closed', last_activity=NOW() WHERE channel_id=$1`.
Unconditional: there is no status precondition in the code. -/
def mark_closed (s : Store) (cid now : Nat) : Store :=
  update_ticket s cid (fun t => { t with status := "closed", last_activity := now })

/-- Final DB write of close_ticket_flow (src/bot.py:808):
`UPDATE tickets SET status='deleted' WHERE channel_id=$1`. -/
def mark_deleted (s : Store) (cid : Nat) : Store :=
  update_ticket s cid (fun t => { t with status := "deleted" })

/-- Platform-visible effects of the close flow, in order. -/
inductive CloseEffect
  | transcriptAttempted
  | closingNoticePosted
  | channelDeleteRequested
deriving Repr, DecidableEq

/-- close_ticket_flow (src/bot.py:769): mark closed, attempt the transcript,
post the closing notice with the countdown, mark deleted, request channel
deletion.  The countdown edits and the transcript/channel-delete failures are
swallowed in the code and change no store state. -/
def close_ticket_flow (s : Store) (cid now : Nat) : Store × List CloseEffect :=
  (mark_deleted (mark_closed s cid now) cid,
   [.transcriptAttempted, .closingNoticePosted, .channelDeleteRequested])

/-- The rotating footer phrases of compute_status_strings (src/bot.py:853). -/
def base_states : List String :=
  ["Waiting for staff", "Processing", "AF SERVICES Support", "Please provide details"]

/-- compute_status_strings (src/bot.py:853): footer and topic text from the
claim state, priority and the tick.  `kind` is accepted and unused, as in the
code. -/
def compute_status_strings (kind : String) (claimed_by : Option Nat)
    (priority : Option String) (tick : Nat) : String × String :=
  let state := base_states.getD (tick % base_states.length) ""
  let pr := (priority.getD "not set").toUpper
  let claimed := if claimed_by.isSome then "Claimed" else "Unclaimed"
  ("AF SERVICES • Status: " ++ state ++ " • " ++ claimed ++ " • Priority: " ++ pr,
   "AF SERVICES Ticket | " ++ claimed ++ " | Priority: " ++ pr ++ " | " ++ state)

/-- The topic half of the status_rotator loop body (src/bot.py:905): write
last_topic_text when it changed and the platform topic edit succeeded
(`topic_ok` — in the code the DB write sits after the edit inside the try). -/
def rotator_topic_step (topic : String) (topic_ok : Bool) (t : Ticket) : Ticket :=
  if (t.last_topic_text.getD "") ≠ topic ∧ topic_ok = true then
    { t with last_topic_text := some topic }
  else t

/-- The footer half of the status_rotator loop body (src/bot.py:913): write
last_footer_text when it changed. -/
def rotator_footer_step (footer : String) (t : Ticket) : Ticket :=
  if (t.last_footer_text.getD "") ≠ footer then
    { t with last_footer_text := some footer }
  else t

/-- The per-row body of the status_rotator loop (src/bot.py:891): when the
channel resolves (`chan_ok`), apply the topic write then the footer write,
both computed by compute_status_strings from the row. -/
def rotator_update (tick : Nat) (chan_ok topic_ok : Bool) (t : Ticket) : Ticket :=
  if !chan_ok then t
  else
    rotator_footer_step (compute_status_strings t.kind t.claimed_by t.priority tick).1
      (rotator_topic_step (compute_status_strings t.kind t.claimed_by t.priority tick).2
        topic_ok t)

/-- One status_rotator tick (src/bot.py:874): rows with `guild_id=$1 AND
status='open'` get the display update; every other row is untouched.
`chan_ok cid` says whether the guild still resolves the channel, `topic_ok
cid` whether the topic edit succeeded. -/
def status_rotator_tick (s : Store) (g tick : Nat) (chan_ok topic_ok : Nat → Bool) :
    Store :=
  { s with tickets := s.tickets.map (fun t =>
      if t.guild_id == g && t.status == "open" then
        rotator_update tick (chan_ok t.channel_id) (topic_ok t.channel_id) t
      else t) }

/-- Every store-mutating operation of the bot, for quantifying "no operation
changes X". -/
inductive Op
  | claim (actor_id : Nat) (is_staff : Bool) (cid : Nat)
  | setPriority (is_staff : Bool) (cid : Nat) (level : String)
  | message (has_guild is_bot is_staff : Bool) (cid now : Nat)
  | closeTicket (cid now : Nat)
  | rotate (g tick : Nat) (chan_ok topic_ok : Nat → Bool)
  | openTicket (r : OpenReq)

/-- Is this operation the close flow? -/
def Op.isClose : Op → Bool
  | .closeTicket _ _ => true
  | _ => false

/-- The store after running one operation. -/
def applyOp (op : Op) (s : Store) : Store :=
  match op with
  | .claim a st cid => (claim_callback s a st cid).1
  | .setPriority st cid lvl => (priority_callback s st cid lvl).1
  | .message hg ib st cid now => on_message s hg ib st cid now
  | .closeTicket cid now => (close_ticket_flow s cid now).1
  | .rotate g tick co tp => status_rotator_tick s g tick co tp
  | .openTicket r => open_atomic s r

/-- The status column of a channel's row, if the row exists. -/
def status_of (s : Store) (cid : Nat) : Option String :=
  (get_ticket s cid).map Ticket.status

/-- The claimed_by column of a channel's row, if the row exists. -/
def claimed_of (s : Store) (cid : Nat) : Option (Option Nat) :=
  (get_ticket s cid).map Ticket.claimed_by

/-- The priority column of a channel's row, if the row exists. -/
def priority_of (s : Store) (cid : Nat) : Option (Option String) :=
  (get_ticket s cid).map Ticket.priority

/-- The first_staff_response_seconds column of a channel's row, if it exists. -/
def first_of (s : Store) (cid : Nat) : Option (Option Nat) :=
  (get_ticket s cid).map Ticket.first_staff_response_seconds

/-- The last_activity column of a channel's row, if the row exists. -/
def activity_of (s : Store) (cid : Nat) : Option Nat :=
  (get_ticket s cid).map Ticket.last_activity

/-- Erase the two display-cache columns, to state that an operation touches
nothing else. -/
def scrub_display (t : Ticket) : Ticket :=
  { t with last_footer_text := none, last_topic_text := none }

/-- A concrete open ticket used to instantiate theorems. -/
def sampleTicket : Ticket :=
  { channel_id := 10, guild_id := 1, owner_id := 2, kind := "support",
    ticket_num := 1, status := "open", created_at := 100, last_activity := 150,
    claimed_by := none, priority := none, first_staff_response_seconds := none,
    control_message_id := some 99, last_footer_text := none, last_topic_text := none }

/-! ### Counter lemmas -/

/-- Setting a counter leaves other kinds' rows untouched. -/
theorem counterLookup_set_other (k k' : String) (v : Nat) (h : k' ≠ k) :
    ∀ c, counterLookup (counterSet c k v) k' = counterLookup c k'
  | [] => rfl
  | (k0, n0) :: rest => by
    by_cases hk : k0 = k
    · subst hk
      simp only [counterSet, if_pos rfl, counterLookup, if_neg (Ne.symm h)]
      exact counterLookup_set_other k0 k' v h rest
    · by_cases hk' : k0 = k'
      · subst hk'
        simp [counterSet, if_neg hk, counterLookup]
      · simp only [counterSet, if_neg hk, counterLookup, if_neg hk']
        exact counterLookup_set_other k k' v h rest

/-- Setting a counter that exists makes the lookup return the new value. -/
theorem counterLookup_set_self (k : String) (v : Nat) :
    ∀ c n, counterLookup c k = some n → counterLookup (counterSet c k v) k = some v
  | [], n => by simp [counterLookup]
  | (k0, n0) :: rest, n => by
    by_cases hk : k0 = k
    · subst hk; simp [counterSet, counterLookup]
    · simp only [counterSet, counterLookup, if_neg hk]
      exact counterLookup_set_self k v rest n

/-- Lookup distributes over append. -/
theorem counterLookup_append (k : String) :
    ∀ c d, counterLookup (c ++ d) k = (counterLookup c k).or (counterLookup d k)
  | [], d => rfl
  | (k0, n0) :: rest, d => by
    by_cases hk : k0 = k
    · subst hk; simp [counterLookup]
    · simp [counterLookup, hk, counterLookup_append k rest d]

/-- The number returned by get_next_ticket_num is one more than the stored
counter value. -/
theorem next_num_val (k : String) (s : Store) :
    (get_next_ticket_num k s).1 = counter_val s k + 1 := by
  unfold get_next_ticket_num counter_val
  cases h : counterLookup s.counters k <;> simp [h]

/-- After get_next_ticket_num, the counter for that kind has been bumped. -/
theorem next_num_counter_self (k : String) (s : Store) :
    counter_val (get_next_ticket_num k s).2 k = counter_val s k + 1 := by
  unfold get_next_ticket_num counter_val
  cases h : counterLookup s.counters k with
  | none => simp [counterLookup_append, h, counterLookup]
  | some n => simp [counterLookup_set_self k (n + 1) s.counters n h, h]

/-- get_next_ticket_num for one kind does not move other kinds' counters. -/
theorem next_num_counter_other (k k' : String) (s : Store) (h : k' ≠ k) :
    counter_val (get_next_ticket_num k s).2 k' = counter_val s k' := by
  unfold get_next_ticket_num counter_val
  cases hl : counterLookup s.counters k with
  | none => simp [counterLookup_append, counterLookup, Ne.symm h]
  | some n => simp [counterLookup_set_other k k' (n + 1) h s.counters]

/-- get_next_ticket_num leaves the tickets table untouched. -/
theorem next_num_tickets (k : String) (s : Store) :
    (get_next_ticket_num k s).2.tickets = s.tickets := by
  unfold get_next_ticket_num
  cases h : counterLookup s.counters k <;> simp [h]

/-- The numbers handed out for kind `k` along any call sequence are the
consecutive range starting just above the stored counter. -/
theorem run_counters_results (k : String) :
    ∀ (ks : List String) (s : Store),
    results_for k (run_counters ks s).1 =
      List.range' (counter_val s k + 1) (ks.count k)
  | [], s => by simp [run_counters, results_for]
  | k0 :: rest, s => by
    have ih := run_counters_results k rest (get_next_ticket_num k0 s).2
    simp only [run_counters, results_for] at ih ⊢
    by_cases hk : k0 = k
    · subst hk
      rw [List.filterMap_cons_some (b := (get_next_ticket_num k0 s).1) (by simp)]
      rw [ih, next_num_counter_self, next_num_val]
      rw [show (k0 :: rest).count k0 = rest.count k0 + 1 by simp [List.count_cons]]
      rw [List.range'_succ]
    · rw [List.filterMap_cons_none (by simp [hk])]
      rw [ih, next_num_counter_other k0 k s (Ne.symm hk)]
      rw [show (k0 :: rest).count k = rest.count k by simp [List.count_cons, hk]]

/-! ### Tickets-table lemmas -/

/-- find? by channel id commutes with a map that preserves channel ids. -/
theorem find?_map_channel (g : Ticket → Ticket)
    (hg : ∀ t, (g t).channel_id = t.channel_id) (cid : Nat) :
    ∀ l : List Ticket,
    (l.map g).find? (fun t => t.channel_id == cid) =
      ((l.find? (fun t => t.channel_id == cid)).map g)
  | [] => rfl
  | x :: xs => by
    by_cases h : x.channel_id = cid
    · have hb : (x.channel_id == cid) = true := by simpa using h
      simp [List.find?_cons, hg, hb]
    · have hb : (x.channel_id == cid) = false := by simpa using h
      simp only [List.map, List.find?_cons, hg x, hb]
      exact find?_map_channel g hg cid xs

/-- get_ticket only reads the tickets table. -/
theorem get_ticket_counters (s : Store) (c : List (String × Nat)) (cid : Nat) :
    get_ticket { s with counters := c } cid = get_ticket s cid := rfl

/-- get_ticket after update_ticket, as a conditional map on the old result. -/
theorem get_ticket_update (s : Store) (cid cid' : Nat) (f : Ticket → Ticket)
    (hf : ∀ t, (f t).channel_id = t.channel_id) :
    get_ticket (update_ticket s cid f) cid' =
      (get_ticket s cid').map (fun t => if t.channel_id == cid then f t else t) := by
  unfold get_ticket update_ticket
  exact find?_map_channel _ (fun t => by by_cases h : t.channel_id = cid <;> simp [h, hf]) cid' s.tickets

/-- Updating a channel's row changes exactly that lookup, by `f`. -/
theorem get_update_eq (s : Store) (cid : Nat) (f : Ticket → Ticket)
    (hf : ∀ t, (f t).channel_id = t.channel_id) :
    get_ticket (update_ticket s cid f) cid = (get_ticket s cid).map f := by
  rw [get_ticket_update s cid cid f hf]
  cases h : get_ticket s cid with
  | none => rfl
  | some t =>
    have := List.find?_some h
    simp at this
    simp [this]

/-- Updating one channel's row leaves other lookups unchanged. -/
theorem get_update_ne (s : Store) (cid cid' : Nat) (f : Ticket → Ticket)
    (hf : ∀ t, (f t).channel_id = t.channel_id) (h : cid' ≠ cid) :
    get_ticket (update_ticket s cid f) cid' = get_ticket s cid' := by
  rw [get_ticket_update s cid cid' f hf]
  cases hg : get_ticket s cid' with
  | none => rfl
  | some t =>
    have := List.find?_some hg
    simp at this
    simp [this, h]

/-- Any projection unchanged by `f` is unchanged by the update, at every
channel. -/
theorem map_obs_update {α : Type} (proj : Ticket → α) (s : Store) (cid cid' : Nat)
    (f : Ticket → Ticket) (hf : ∀ t, (f t).channel_id = t.channel_id)
    (hp : ∀ t, proj (f t) = proj t) :
    (get_ticket (update_ticket s cid f) cid').map proj =
      (get_ticket s cid').map proj := by
  by_cases h : cid' = cid
  · subst h
    rw [get_update_eq s cid' f hf]
    cases hg : get_ticket s cid' <;> simp [hp]
  · rw [get_update_ne s cid cid' f hf h]

/-- A row that exists keeps being found after appending a new row. -/
theorem get_ticket_append (s : Store) (nt : Ticket) (cid : Nat) (t : Ticket)
    (h : get_ticket s cid = some t) :
    get_ticket { s with tickets := s.tickets ++ [nt] } cid = some t := by
  unfold get_ticket at h ⊢
  rw [List.find?_append, h]
  rfl

/-- The topic write changes only a display column. -/
theorem rotator_topic_scrub (topic : String) (tp : Bool) (t : Ticket) :
    scrub_display (rotator_topic_step topic tp t) = scrub_display t := by
  unfold rotator_topic_step
  split <;> rfl

/-- The footer write changes only a display column. -/
theorem rotator_footer_scrub (footer : String) (t : Ticket) :
    scrub_display (rotator_footer_step footer t) = scrub_display t := by
  unfold rotator_footer_step
  split <;> rfl

/-- The rotator's per-row update changes only the two display columns. -/
theorem rotator_update_scrub (tick : Nat) (co tp : Bool) (t : Ticket) :
    scrub_display (rotator_update tick co tp t) = scrub_display t := by
  unfold rotator_update
  split
  · rfl
  · rw [rotator_footer_scrub, rotator_topic_scrub]

/-- The rotator's per-row update keeps the channel id. -/
theorem rotator_update_channel (tick : Nat) (co tp : Bool) (t : Ticket) :
    (rotator_update tick co tp t).channel_id = t.channel_id := by
  simpa [scrub_display] using congrArg Ticket.channel_id (rotator_update_scrub tick co tp t)

/-- The rotator's per-row update keeps the status. -/
theorem rotator_update_status (tick : Nat) (co tp : Bool) (t : Ticket) :
    (rotator_update tick co tp t).status = t.status := by
  simpa [scrub_display] using congrArg Ticket.status (rotator_update_scrub tick co tp t)

/-- The rotator's per-row update keeps claimed_by. -/
theorem rotator_update_claimed (tick : Nat) (co tp : Bool) (t : Ticket) :
    (rotator_update tick co tp t).claimed_by = t.claimed_by := by
  simpa [scrub_display] using congrArg Ticket.claimed_by (rotator_update_scrub tick co tp t)

/-- The rotator's per-row update keeps first_staff_response_seconds. -/
theorem rotator_update_first (tick : Nat) (co tp : Bool) (t : Ticket) :
    (rotator_update tick co tp t).first_staff_response_seconds =
      t.first_staff_response_seconds := by
  simpa [scrub_display] using
    congrArg Ticket.first_staff_response_seconds (rotator_update_scrub tick co tp t)

/-- get_ticket after a rotator tick, as a conditional map on the old result. -/
theorem get_ticket_rotator (s : Store) (g tick : Nat) (co tp : Nat → Bool) (cid : Nat) :
    get_ticket (status_rotator_tick s g tick co tp) cid =
      (get_ticket s cid).map (fun t =>
        if t.guild_id == g && t.status == "open" then
          rotator_update tick (co t.channel_id) (tp t.channel_id) t
        else t) := by
  unfold get_ticket status_rotator_tick
  exact find?_map_channel _
    (fun t => by
      by_cases h : (t.guild_id == g && t.status == "open") = true <;>
        simp [h, rotator_update_channel])
    cid s.tickets

/-- Two updates of the same channel compose. -/
theorem update_update (s : Store) (cid : Nat) (f g : Ticket → Ticket)
    (hf : ∀ t, (f t).channel_id = t.channel_id) :
    update_ticket (update_ticket s cid f) cid g =
      update_ticket s cid (fun t => g (f t)) := by
  unfold update_ticket
  simp only [List.map_map]
  have hfun : ∀ t : Ticket,
      ((fun t => if t.channel_id == cid then g t else t) ∘
        (fun t => if t.channel_id == cid then f t else t)) t =
      (fun t => if t.channel_id == cid then g (f t) else t) t := by
    intro t
    by_cases h : t.channel_id = cid
    · have hb : (t.channel_id == cid) = true := by simpa using h
      simp [Function.comp, hb, hf]
    · have hb : (t.channel_id == cid) = false := by simpa using h
      simp [Function.comp, hb]
  rw [funext hfun]

/-- get_ticket is unchanged by the counter bump. -/
theorem get_ticket_next_num (k : String) (s : Store) (cid : Nat) :
    get_ticket (get_next_ticket_num k s).2 cid = get_ticket s cid := by
  unfold get_ticket
  rw [next_num_tickets]

/-- A row that exists before an atomic open request exists afterwards, at most
with its control_message_id rewritten (only possible for the request's own
fresh channel id, where the insert would have conflicted anyway). -/
theorem open_atomic_get (s : Store) (r : OpenReq) (cid : Nat) (t : Ticket)
    (h : get_ticket s cid = some t) :
    get_ticket (open_atomic s r) cid = some t ∨
    get_ticket (open_atomic s r) cid =
      some { t with control_message_id := some r.control_msg_id } := by
  unfold open_atomic open_step
  cases hfo : find_open_ticket s r.guild_id r.owner_id r.kind with
  | some u => left; simpa using h
  | none =>
    dsimp only
    cases hc : create_ticket (get_next_ticket_num r.kind s).2 r.new_channel_id
        r.guild_id r.owner_id r.kind (get_next_ticket_num r.kind s).1 r.now with
    | none =>
      left
      simpa [get_ticket_next_num] using h
    | some s2 =>
      dsimp only
      unfold create_ticket at hc
      split at hc
      · exact absurd hc (by simp)
      · have hs2 : s2 = { (get_next_ticket_num r.kind s).2 with
            tickets := (get_next_ticket_num r.kind s).2.tickets ++
              [{ channel_id := r.new_channel_id, guild_id := r.guild_id,
                 owner_id := r.owner_id, kind := r.kind,
                 ticket_num := (get_next_ticket_num r.kind s).1,
                 status := "open", created_at := r.now, last_activity := r.now,
                 claimed_by := none, priority := none,
                 first_staff_response_seconds := none,
                 control_message_id := none, last_footer_text := none,
                 last_topic_text := none }] } := by
          injection hc with hc'
          exact hc'.symm
        have hget : get_ticket s2 cid = some t := by
          rw [hs2]
          exact get_ticket_append _ _ _ _ (by rw [get_ticket_next_num]; exact h)
        by_cases hcid : cid = r.new_channel_id
        · right
          subst hcid
          rw [get_update_eq
            (f := fun t => { t with control_message_id := some r.control_msg_id })
            _ _ (fun u => rfl), hget]
          rfl
        · left
          rw [get_update_ne
            (f := fun t => { t with control_message_id := some r.control_msg_id })
            _ _ _ (fun u => rfl) hcid, hget]

/-- An update whose row function keeps status keeps every status observation. -/
theorem status_of_update (s : Store) (cid cid' : Nat) (f : Ticket → Ticket)
    (hf : ∀ t, (f t).channel_id = t.channel_id) (hp : ∀ t, (f t).status = t.status) :
    status_of (update_ticket s cid f) cid' = status_of s cid' :=
  map_obs_update Ticket.status s cid cid' f hf hp

/-- An update whose row function keeps claimed_by keeps every claimed_by
observation. -/
theorem claimed_of_update (s : Store) (cid cid' : Nat) (f : Ticket → Ticket)
    (hf : ∀ t, (f t).channel_id = t.channel_id)
    (hp : ∀ t, (f t).claimed_by = t.claimed_by) :
    claimed_of (update_ticket s cid f) cid' = claimed_of s cid' :=
  map_obs_update Ticket.claimed_by s cid cid' f hf hp

/-- An update whose row function keeps first_staff_response_seconds keeps
every observation of it. -/
theorem first_of_update (s : Store) (cid cid' : Nat) (f : Ticket → Ticket)
    (hf : ∀ t, (f t).channel_id = t.channel_id)
    (hp : ∀ t, (f t).first_staff_response_seconds = t.first_staff_response_seconds) :
    first_of (update_ticket s cid f) cid' = first_of s cid' :=
  map_obs_update Ticket.first_staff_response_seconds s cid cid' f hf hp

/-- The staff-path claim handler, written as one conditional on the row that
the SELECT returned. -/
theorem claim_callback_cases (s : Store) (a cid : Nat) (t : Ticket)
    (h : get_ticket s cid = some t) :
    claim_callback s a true cid =
      if t.status ≠ "open" then (s, .notOpen)
      else if t.claimed_by.isSome then (s, .alreadyClaimed)
      else (update_ticket s cid (fun u => { u with claimed_by := some a }), .claimed) := by
  unfold claim_callback
  rw [h]
  rfl

/-- The claim handler either rejects without touching the store or performs
exactly the claimed_by update. -/
theorem claim_store (s : Store) (a : Nat) (sf : Bool) (cid : Nat) :
    (claim_callback s a sf cid).1 = s ∨
    ((claim_callback s a sf cid).1 =
        update_ticket s cid (fun t => { t with claimed_by := some a }) ∧
      ∃ row : Ticket, get_ticket s cid = some row ∧ row.status = "open" ∧
        row.claimed_by = none) := by
  unfold claim_callback
  cases sf with
  | false => left; rfl
  | true =>
    cases hg : get_ticket s cid with
    | none => left; rfl
    | some row =>
      by_cases hs : row.status = "open"
      · by_cases hcl : row.claimed_by.isSome
        · left; simp [hs, hcl]
        · right
          refine ⟨by simp [hs, hcl], row, rfl, hs, ?_⟩
          cases hrow : row.claimed_by with
          | none => rfl
          | some y => rw [hrow] at hcl; simp at hcl
      · left; simp [hs]

/-- The priority handler either rejects without touching the store or
performs exactly the priority update. -/
theorem priority_store (s : Store) (sf : Bool) (cid : Nat) (lvl : String) :
    (priority_callback s sf cid lvl).1 = s ∨
    ((priority_callback s sf cid lvl).1 =
        update_ticket s cid (fun t => { t with priority := some lvl }) ∧
      ∃ row : Ticket, get_ticket s cid = some row ∧ row.status = "open") := by
  unfold priority_callback
  cases sf with
  | false => left; rfl
  | true =>
    cases hg : get_ticket s cid with
    | none => left; rfl
    | some row =>
      by_cases hs : row.status = "open"
      · right; exact ⟨by simp [hs], row, rfl, hs⟩
      · left; simp [hs]

/-- The message handler leaves the store alone, updates only last_activity,
or updates last_activity and then sets first_staff_response_seconds — the
last only when the row read had the field still null. -/
theorem on_message_store (s : Store) (hg ib sf : Bool) (cid now : Nat) :
    on_message s hg ib sf cid now = s ∨
    on_message s hg ib sf cid now =
      update_ticket s cid (fun t => { t with last_activity := now }) ∨
    (∃ row : Ticket, get_ticket s cid = some row ∧
      row.first_staff_response_seconds = none ∧
      on_message s hg ib sf cid now =
        update_ticket (update_ticket s cid (fun t => { t with last_activity := now }))
          cid (fun t =>
            { t with first_staff_response_seconds := some (now - row.created_at) })) := by
  unfold on_message
  by_cases hguard : (!hg || ib) = true
  · left; simp [hguard]
  · simp only [hguard]
    cases hget : get_ticket s cid with
    | none => left; rfl
    | some row =>
      by_cases hcond : row.status = "open" ∧ sf = true ∧
          row.first_staff_response_seconds = none
      · right; right
        exact ⟨row, rfl, hcond.2.2, by simp [hcond]⟩
      · right; left
        simp [hcond]

/-- The staff-path priority handler, written as one conditional on the row
the SELECT returned. -/
theorem priority_callback_cases (s : Store) (cid : Nat) (lvl : String) (t : Ticket)
    (h : get_ticket s cid = some t) :
    priority_callback s true cid lvl =
      if t.status ≠ "open" then (s, .notOpen)
      else (update_ticket s cid (fun u => { u with priority := some lvl }), .updated) := by
  unfold priority_callback
  rw [h]
  rfl

/-- The guild, non-bot path of the message handler, written as one
conditional on the row the SELECT returned. -/
theorem on_message_cases (s : Store) (sf : Bool) (cid now : Nat) (t : Ticket)
    (h : get_ticket s cid = some t) :
    on_message s true false sf cid now =
      if t.status = "open" ∧ sf = true ∧ t.first_staff_response_seconds = none then
        update_ticket (update_ticket s cid (fun u => { u with last_activity := now }))
          cid (fun u =>
            { u with first_staff_response_seconds := some (now - t.created_at) })
      else update_ticket s cid (fun u => { u with last_activity := now }) := by
  unfold on_message
  rw [h]
  rfl

/-- An update whose row function keeps last_activity keeps every observation
of it. -/
theorem activity_of_update (s : Store) (cid cid' : Nat) (f : Ticket → Ticket)
    (hf : ∀ t, (f t).channel_id = t.channel_id)
    (hp : ∀ t, (f t).last_activity = t.last_activity) :
    activity_of (update_ticket s cid f) cid' = activity_of s cid' :=
  map_obs_update Ticket.last_activity s cid cid' f hf hp

/-- A rotator tick preserves every observation that its per-row update
preserves. -/
theorem rotator_obs_pres {α : Type} (proj : Ticket → α)
    (hp : ∀ tick co tp t, proj (rotator_update tick co tp t) = proj t)
    (s : Store) (g tick : Nat) (co tp : Nat → Bool) (cid : Nat) :
    (get_ticket (status_rotator_tick s g tick co tp) cid).map proj =
      (get_ticket s cid).map proj := by
  rw [get_ticket_rotator]
  cases hg : get_ticket s cid with
  | none => rfl
  | some t =>
    dsimp only [Option.map]
    simp only [Bool.and_eq_true, beq_iff_eq]
    by_cases h : t.guild_id = g ∧ t.status = "open"
    · rw [if_pos h, hp]
    · rw [if_neg h]

/-- The close flow's first UPDATE rewrites the row to closed/now. -/
theorem mark_closed_get (s : Store) (cid now : Nat) (t : Ticket)
    (h : get_ticket s cid = some t) :
    get_ticket (mark_closed s cid now) cid =
      some { t with status := "closed", last_activity := now } := by
  unfold mark_closed
  rw [get_update_eq (f := fun t => { t with status := "closed", last_activity := now })
    _ _ (fun u => rfl), h]
  rfl

/-- After the whole close flow the row is deleted with last_activity the
close time. -/
theorem close_flow_get (s : Store) (cid now : Nat) (t : Ticket)
    (h : get_ticket s cid = some t) :
    get_ticket (close_ticket_flow s cid now).1 cid =
      some { t with status := "deleted", last_activity := now } := by
  unfold close_ticket_flow mark_deleted
  rw [get_update_eq (f := fun t => { t with status := "deleted" }) _ _ (fun u => rfl),
    mark_closed_get s cid now t h]
  rfl

/-! ### Claims -/

/-- C1: the at-most-one-open-ticket property fails on the code.  Starting
from the empty store, two open-ticket requests for the same (guild 1, owner
2, kind "support") whose handlers interleave so that both uniqueness checks
run before either insert (check of request one, check of request two, then
both creation steps) BOTH finish as `created`, creating two channels and two
rows with status 'open' for the same (guild, owner, kind); neither request is
rejected.  This contradicts the claim (and the code's own comment "Only 1
open ticket per user per category"): the schema has no unique constraint on
open (guild_id, owner_id, kind) — idx_open_owner_kind is a plain index — so
the SELECT-then-INSERT across await points races. -/
theorem C1_double_open_rows :
    (run_two ⟨1, 2, "support", 100, 200, 0⟩ ⟨1, 2, "support", 101, 201, 0⟩
        [true, false, true, false] ⟨[], []⟩).2.1 =
      .finished (.created 100) ∧
    (run_two ⟨1, 2, "support", 100, 200, 0⟩ ⟨1, 2, "support", 101, 201, 0⟩
        [true, false, true, false] ⟨[], []⟩).2.2 =
      .finished (.created 101) ∧
    open_count (run_two ⟨1, 2, "support", 100, 200, 0⟩ ⟨1, 2, "support", 101, 201, 0⟩
        [true, false, true, false] ⟨[], []⟩).1 1 2 "support" = 2 := by
  decide

/-- C2: for every kind k, every starting store and every call sequence (the
list of kinds is the interleaving order of the atomic counter statements),
the numbers returned to the calls for kind k form a strictly increasing
sequence — in particular the same value is never returned twice for kind k,
however many callers interleave. -/
theorem C2_next_num_strictly_increasing (ks : List String) (s : Store) (k : String) :
    (results_for k (run_counters ks s).1).Pairwise (· < ·) := by
  rw [run_counters_results]
  exact List.pairwise_lt_range' _ _

/-- C3 counterexample: invoking close_ticket_flow on a ticket whose status is
already 'closed' does not fail with a NotOpenError and is not effect-free:
the row's status changes to 'deleted', its last_activity is overwritten, and
the transcript / closing-notice / channel-delete effects all fire. -/
theorem C3_close_on_closed_not_rejected :
    status_of (close_ticket_flow ⟨[], [{ sampleTicket with status := "closed" }]⟩
      10 300).1 10 = some "deleted" ∧
    activity_of (close_ticket_flow ⟨[], [{ sampleTicket with status := "closed" }]⟩
      10 300).1 10 = some 300 ∧
    (close_ticket_flow ⟨[], [{ sampleTicket with status := "closed" }]⟩ 10 300).2 =
      [.transcriptAttempted, .closingNoticePosted, .channelDeleteRequested] := by
  decide

/-- C3 (amended): close_ticket_flow has no status precondition and no
NotOpenError: for every existing ticket, whatever its current status (open,
closed or deleted), it runs the whole close workflow — the row ends with
status 'deleted' and last_activity set to the close time, and the
transcript, closing notice and channel deletion are all performed. -/
theorem C3_close_runs_unconditionally (s : Store) (cid now : Nat) (t : Ticket)
    (h : get_ticket s cid = some t) :
    status_of (close_ticket_flow s cid now).1 cid = some "deleted" ∧
    activity_of (close_ticket_flow s cid now).1 cid = some now ∧
    (close_ticket_flow s cid now).2 =
      [.transcriptAttempted, .closingNoticePosted, .channelDeleteRequested] := by
  refine ⟨?_, ?_, rfl⟩ <;>
    simp [status_of, activity_of, close_flow_get s cid now t h]

/-- C3 witness: the amended close theorem at a concrete ticket. -/
theorem C3_close_runs_unconditionally_witness :
    status_of (close_ticket_flow ⟨[], [sampleTicket]⟩ 10 300).1 10 = some "deleted" ∧
    activity_of (close_ticket_flow ⟨[], [sampleTicket]⟩ 10 300).1 10 = some 300 ∧
    (close_ticket_flow ⟨[], [sampleTicket]⟩ 10 300).2 =
      [.transcriptAttempted, .closingNoticePosted, .channelDeleteRequested] :=
  C3_close_runs_unconditionally ⟨[], [sampleTicket]⟩ 10 300 sampleTicket (by decide)

/-- C4 counterexample: a row whose status is 'deleted' has its status changed
again — the first UPDATE of a re-invoked close flow moves it back to
'closed' (this intermediate store state persists for the whole
transcript-and-countdown window of the flow), so 'deleted' is not terminal
under the code's operations. -/
theorem C4_deleted_row_reclosed :
    status_of (mark_closed ⟨[], [{ sampleTicket with status := "deleted" }]⟩ 10 300) 10 =
      some "closed" := by
  decide

/-- C4 (amended): status moves only along open → closed → deleted and only
the close flow drives it: every other operation (claim, set-priority,
message handling, the rotator tick, an atomic open request) preserves every
existing row's status, and a completed close flow always leaves the row
'deleted'; but because close_ticket_flow has no status guard, its first
UPDATE sets any row — even a deleted one — back to 'closed' before the final
UPDATE re-marks it 'deleted'.  There is no reopen operation. -/
theorem C4_status_forward_only :
    (∀ (op : Op) (s : Store) (cid : Nat) (st : String), op.isClose = false →
      status_of s cid = some st → status_of (applyOp op s) cid = some st) ∧
    (∀ (s : Store) (cid now : Nat) (t : Ticket), get_ticket s cid = some t →
      status_of (close_ticket_flow s cid now).1 cid = some "deleted" ∧
      status_of (mark_closed s cid now) cid = some "closed") := by
  constructor
  · intro op s cid st hop hst
    cases op with
    | claim a sf cid0 =>
      rcases claim_store s a sf cid0 with h | ⟨h, _⟩ <;> simp only [applyOp, h]
      · exact hst
      · rw [status_of_update (f := fun t => { t with claimed_by := some a })
          _ _ _ (fun u => rfl) (fun u => rfl)]
        exact hst
    | setPriority sf cid0 lvl =>
      rcases priority_store s sf cid0 lvl with h | ⟨h, _⟩ <;> simp only [applyOp, h]
      · exact hst
      · rw [status_of_update (f := fun t => { t with priority := some lvl })
          _ _ _ (fun u => rfl) (fun u => rfl)]
        exact hst
    | message hg ib sf cid0 now =>
      rcases on_message_store s hg ib sf cid0 now with h | h | ⟨row, _, _, h⟩ <;>
        simp only [applyOp, h]
      · exact hst
      · rw [status_of_update (f := fun t => { t with last_activity := now })
          _ _ _ (fun u => rfl) (fun u => rfl)]
        exact hst
      · rw [status_of_update
            (f := fun t =>
              { t with first_staff_response_seconds := some (now - row.created_at) })
            _ _ _ (fun u => rfl) (fun u => rfl),
          status_of_update (f := fun t => { t with last_activity := now })
            _ _ _ (fun u => rfl) (fun u => rfl)]
        exact hst
    | closeTicket cid0 now => simp [Op.isClose] at hop
    | rotate g tick co tp =>
      have := rotator_obs_pres Ticket.status rotator_update_status s g tick co tp cid
      simp only [applyOp]
      unfold status_of at hst ⊢
      rw [this]
      exact hst
    | openTicket r =>
      cases hg : get_ticket s cid with
      | none => rw [status_of, hg] at hst; simp at hst
      | some t =>
        have hts : t.status = st := by
          rw [status_of, hg] at hst; simpa using hst
        rcases open_atomic_get s r cid t hg with h | h <;>
          simp [applyOp, status_of, h, hts]
  · intro s cid now t h
    constructor
    · simp [status_of, close_flow_get s cid now t h]
    · simp [status_of, mark_closed_get s cid now t h]

/-- C4 witness: the amended status theorem at concrete inputs — a rotator
tick preserves an open row's status, and the close flow on a concrete row
ends 'deleted' after transiting 'closed'. -/
theorem C4_status_forward_only_witness :
    status_of (applyOp (.rotate 1 0 (fun _ => true) (fun _ => true))
      ⟨[], [sampleTicket]⟩) 10 = some "open" ∧
    status_of (close_ticket_flow ⟨[], [sampleTicket]⟩ 10 300).1 10 = some "deleted" ∧
    status_of (mark_closed ⟨[], [sampleTicket]⟩ 10 300) 10 = some "closed" :=
  ⟨C4_status_forward_only.1 (.rotate 1 0 (fun _ => true) (fun _ => true))
      ⟨[], [sampleTicket]⟩ 10 "open" rfl (by decide),
   (C4_status_forward_only.2 ⟨[], [sampleTicket]⟩ 10 300 sampleTicket (by decide)).1,
   (C4_status_forward_only.2 ⟨[], [sampleTicket]⟩ 10 300 sampleTicket (by decide)).2⟩

/-- C5 counterexample: an open ticket idle since last_activity = 150, swept
at an arbitrarily later tick, is NOT closed by the periodic task: its status
is still 'open' afterwards.  The code has no inactivity monitor — on_message
even carries the comment "we removed inactivity close" — and the only
periodic task, status_rotator, never closes anything. -/
theorem C5_sweep_does_not_close :
    status_of (status_rotator_tick ⟨[], [sampleTicket]⟩ 1 100000
      (fun _ => true) (fun _ => true)) 10 = some "open" := by
  decide

/-- C5 (amended): the program's only periodic sweep is the status rotator,
and one tick changes nothing but the last_footer_text / last_topic_text
display caches: erasing those two columns, the tickets table is identical
before and after — in particular no status changes, no last_activity
comparison happens, and the close workflow is never invoked.  Inactivity
auto-close does not exist in this code. -/
theorem C5_rotator_display_only (s : Store) (g tick : Nat) (co tp : Nat → Bool) :
    (status_rotator_tick s g tick co tp).tickets.map scrub_display =
      s.tickets.map scrub_display := by
  unfold status_rotator_tick
  dsimp only
  rw [List.map_map]
  have hfun : ∀ t : Ticket,
      (scrub_display ∘ fun t =>
        if t.guild_id == g && t.status == "open" then
          rotator_update tick (co t.channel_id) (tp t.channel_id) t
        else t) t = scrub_display t := by
    intro t
    by_cases h : (t.guild_id == g && t.status == "open") = true <;>
      simp [Function.comp, h, rotator_update_scrub]
  rw [funext hfun]

/-- C6 counterexample: a ticket whose claimed_by is already set (to 5) but
whose status is 'closed' rejects a staff claim attempt with the
not-found-or-not-open response — not with the already-claimed rejection that
the claim promises for every subsequent attempt. -/
theorem C6_claimed_closed_wrong_error :
    (claim_callback ⟨[], [{ sampleTicket with status := "closed", claimed_by := some 5 }]⟩
      7 true 10).2 = .notOpen ∧
    (claim_callback ⟨[], [{ sampleTicket with status := "closed", claimed_by := some 5 }]⟩
      7 true 10).2 ≠ .alreadyClaimed ∧
    (claim_callback ⟨[], [{ sampleTicket with status := "closed", claimed_by := some 5 }]⟩
      7 true 10).1 =
      ⟨[], [{ sampleTicket with status := "closed", claimed_by := some 5 }]⟩ := by
  decide

/-- C6 (amended): claimed_by is write-once.  Once set, every further staff
claim attempt fails and leaves the store untouched — with the
already-claimed rejection when the ticket is still open, and with the
not-found-or-not-open rejection otherwise; no operation of the bot ever
changes a set claimed_by value (in particular none clears it); and a staff
claim on an open, unclaimed ticket sets claimed_by to the claiming actor. -/
theorem C6_claimed_by_write_once :
    (∀ (s : Store) (a cid x : Nat) (t : Ticket), get_ticket s cid = some t →
      t.claimed_by = some x →
      (claim_callback s a true cid).1 = s ∧
      (claim_callback s a true cid).2 =
        (if t.status = "open" then ClaimResult.alreadyClaimed else ClaimResult.notOpen)) ∧
    (∀ (op : Op) (s : Store) (cid x : Nat), claimed_of s cid = some (some x) →
      claimed_of (applyOp op s) cid = some (some x)) ∧
    (∀ (s : Store) (a cid : Nat) (t : Ticket), get_ticket s cid = some t →
      t.status = "open" → t.claimed_by = none →
      claimed_of (claim_callback s a true cid).1 cid = some (some a)) := by
  refine ⟨?_, ?_, ?_⟩
  · intro s a cid x t h hx
    by_cases hs : t.status = "open" <;>
      simp [claim_callback_cases s a cid t h, hs, hx]
  · intro op s cid x hcl
    cases op with
    | claim a sf cid0 =>
      rcases claim_store s a sf cid0 with h | ⟨h, row, hrow, _, hnone⟩ <;>
        simp only [applyOp, h]
      · exact hcl
      · by_cases hcc : cid = cid0
        · subst hcc
          unfold claimed_of at hcl
          rw [hrow] at hcl
          simp [hnone] at hcl
        · unfold claimed_of
          rw [get_update_ne (f := fun t => { t with claimed_by := some a })
            _ _ _ (fun u => rfl) hcc]
          exact hcl
    | setPriority sf cid0 lvl =>
      rcases priority_store s sf cid0 lvl with h | ⟨h, _⟩ <;> simp only [applyOp, h]
      · exact hcl
      · rw [claimed_of_update (f := fun t => { t with priority := some lvl })
          _ _ _ (fun u => rfl) (fun u => rfl)]
        exact hcl
    | message hg ib sf cid0 now =>
      rcases on_message_store s hg ib sf cid0 now with h | h | ⟨row, _, _, h⟩ <;>
        simp only [applyOp, h]
      · exact hcl
      · rw [claimed_of_update (f := fun t => { t with last_activity := now })
          _ _ _ (fun u => rfl) (fun u => rfl)]
        exact hcl
      · rw [claimed_of_update
            (f := fun t =>
              { t with first_staff_response_seconds := some (now - row.created_at) })
            _ _ _ (fun u => rfl) (fun u => rfl),
          claimed_of_update (f := fun t => { t with last_activity := now })
            _ _ _ (fun u => rfl) (fun u => rfl)]
        exact hcl
    | closeTicket cid0 now =>
      simp only [applyOp, close_ticket_flow]
      unfold mark_deleted mark_closed
      rw [claimed_of_update (f := fun t => { t with status := "deleted" })
          _ _ _ (fun u => rfl) (fun u => rfl),
        claimed_of_update
          (f := fun t => { t with status := "closed", last_activity := now })
          _ _ _ (fun u => rfl) (fun u => rfl)]
      exact hcl
    | rotate g tick co tp =>
      have := rotator_obs_pres Ticket.claimed_by rotator_update_claimed s g tick co tp cid
      simp only [applyOp]
      unfold claimed_of at hcl ⊢
      rw [this]
      exact hcl
    | openTicket r =>
      cases hg : get_ticket s cid with
      | none => rw [claimed_of, hg] at hcl; simp at hcl
      | some t =>
        have hts : t.claimed_by = some x := by
          rw [claimed_of, hg] at hcl; simpa using hcl
        rcases open_atomic_get s r cid t hg with h | h <;>
          simp [applyOp, claimed_of, h, hts]
  · intro s a cid t h hs hnone
    have hres : (claim_callback s a true cid).1 =
        update_ticket s cid (fun u => { u with claimed_by := some a }) := by
      rw [claim_callback_cases s a cid t h]
      rw [if_neg (not_not_intro hs), if_neg (by simp [hnone])]
    rw [hres]
    unfold claimed_of
    rw [get_update_eq (f := fun u => { u with claimed_by := some a })
      _ _ (fun u => rfl), h]
    rfl

/-- C6 witness: the amended write-once theorem at concrete tickets — a second
staff claim on an open claimed ticket is rejected as already-claimed with the
store untouched, the rotator preserves a set claimed_by, and a staff claim on
an open unclaimed ticket records the actor. -/
theorem C6_claimed_by_write_once_witness :
    ((claim_callback ⟨[], [{ sampleTicket with claimed_by := some 5 }]⟩ 7 true 10).1 =
        ⟨[], [{ sampleTicket with claimed_by := some 5 }]⟩ ∧
      (claim_callback ⟨[], [{ sampleTicket with claimed_by := some 5 }]⟩ 7 true 10).2 =
        (if ({ sampleTicket with claimed_by := some 5 } : Ticket).status = "open" then
          ClaimResult.alreadyClaimed else ClaimResult.notOpen)) ∧
    claimed_of (applyOp (.rotate 1 0 (fun _ => true) (fun _ => true))
      ⟨[], [{ sampleTicket with claimed_by := some 5 }]⟩) 10 = some (some 5) ∧
    claimed_of (claim_callback ⟨[], [sampleTicket]⟩ 7 true 10).1 10 = some (some 7) :=
  ⟨C6_claimed_by_write_once.1 ⟨[], [{ sampleTicket with claimed_by := some 5 }]⟩
      7 10 5 { sampleTicket with claimed_by := some 5 } (by decide) (by decide),
   C6_claimed_by_write_once.2.1 (.rotate 1 0 (fun _ => true) (fun _ => true))
      ⟨[], [{ sampleTicket with claimed_by := some 5 }]⟩ 10 5 (by decide),
   C6_claimed_by_write_once.2.2 ⟨[], [sampleTicket]⟩ 7 10 sampleTicket
      (by decide) (by decide) (by decide)⟩

/-- C7: first_staff_response_seconds is write-once: (a) once the field holds
a value, no operation of the bot — in particular no later message, staff or
otherwise — ever changes it; (b) a staff-authored, non-bot guild message in
an open ticket whose field is still null sets it to the whole number of
seconds between the row's created_at and the message time. -/
theorem C7_first_response_write_once :
    (∀ (op : Op) (s : Store) (cid v : Nat), first_of s cid = some (some v) →
      first_of (applyOp op s) cid = some (some v)) ∧
    (∀ (s : Store) (cid now : Nat) (t : Ticket), get_ticket s cid = some t →
      t.status = "open" → t.first_staff_response_seconds = none →
      first_of (on_message s true false true cid now) cid =
        some (some (now - t.created_at))) := by
  constructor
  · intro op s cid v hv
    cases op with
    | claim a sf cid0 =>
      rcases claim_store s a sf cid0 with h | ⟨h, _⟩ <;> simp only [applyOp, h]
      · exact hv
      · rw [first_of_update (f := fun u => { u with claimed_by := some a })
          _ _ _ (fun u => rfl) (fun u => rfl)]
        exact hv
    | setPriority sf cid0 lvl =>
      rcases priority_store s sf cid0 lvl with h | ⟨h, _⟩ <;> simp only [applyOp, h]
      · exact hv
      · rw [first_of_update (f := fun u => { u with priority := some lvl })
          _ _ _ (fun u => rfl) (fun u => rfl)]
        exact hv
    | message hg ib sf cid0 now =>
      rcases on_message_store s hg ib sf cid0 now with h | h | ⟨row, hrow, hnone, h⟩ <;>
        simp only [applyOp, h]
      · exact hv
      · rw [first_of_update (f := fun u => { u with last_activity := now })
          _ _ _ (fun u => rfl) (fun u => rfl)]
        exact hv
      · by_cases hcc : cid = cid0
        · subst hcc
          unfold first_of at hv
          rw [hrow] at hv
          simp [hnone] at hv
        · unfold first_of
          rw [get_update_ne
              (f := fun u =>
                { u with first_staff_response_seconds := some (now - row.created_at) })
              _ _ _ (fun u => rfl) hcc,
            get_update_ne (f := fun u => { u with last_activity := now })
              _ _ _ (fun u => rfl) hcc]
          exact hv
    | closeTicket cid0 now =>
      simp only [applyOp, close_ticket_flow]
      unfold mark_deleted mark_closed
      rw [first_of_update (f := fun u => { u with status := "deleted" })
          _ _ _ (fun u => rfl) (fun u => rfl),
        first_of_update
          (f := fun u => { u with status := "closed", last_activity := now })
          _ _ _ (fun u => rfl) (fun u => rfl)]
      exact hv
    | rotate g tick co tp =>
      have := rotator_obs_pres Ticket.first_staff_response_seconds rotator_update_first
        s g tick co tp cid
      simp only [applyOp]
      unfold first_of at hv ⊢
      rw [this]
      exact hv
    | openTicket r =>
      cases hg : get_ticket s cid with
      | none => rw [first_of, hg] at hv; simp at hv
      | some t =>
        have hts : t.first_staff_response_seconds = some v := by
          rw [first_of, hg] at hv; simpa using hv
        rcases open_atomic_get s r cid t hg with h | h <;>
          simp [applyOp, first_of, h, hts]
  · intro s cid now t h hs hnone
    rw [on_message_cases s true cid now t h, if_pos ⟨hs, rfl, hnone⟩]
    unfold first_of
    rw [get_update_eq
      (f := fun u => { u with first_staff_response_seconds := some (now - t.created_at) })
      _ _ (fun u => rfl)]
    rw [get_update_eq (f := fun u => { u with last_activity := now }) _ _ (fun u => rfl), h]
    rfl

/-- C7 witness: a later non-staff message leaves a recorded value 42 alone,
and a first staff message on the concrete open ticket records 777 − 100
seconds. -/
theorem C7_first_response_write_once_witness :
    first_of (applyOp (.message true false false 10 999)
      ⟨[], [{ sampleTicket with first_staff_response_seconds := some 42 }]⟩) 10 =
      some (some 42) ∧
    first_of (on_message ⟨[], [sampleTicket]⟩ true false true 10 777) 10 =
      some (some (777 - 100)) :=
  ⟨C7_first_response_write_once.1 (.message true false false 10 999)
      ⟨[], [{ sampleTicket with first_staff_response_seconds := some 42 }]⟩ 10 42
      (by decide),
   C7_first_response_write_once.2 ⟨[], [sampleTicket]⟩ 10 777 sampleTicket
      (by decide) (by decide) (by decide)⟩

/-- C8: set_priority on an open ticket is an idempotent overwrite: the first
application succeeds and stores the level; applying the same level again
succeeds and changes nothing at all in the store. -/
theorem C8_set_priority_idempotent (s : Store) (cid : Nat) (lvl : String) (t : Ticket)
    (h : get_ticket s cid = some t) (hs : t.status = "open") :
    (priority_callback s true cid lvl).2 = .updated ∧
    priority_of (priority_callback s true cid lvl).1 cid = some (some lvl) ∧
    (priority_callback (priority_callback s true cid lvl).1 true cid lvl).2 = .updated ∧
    (priority_callback (priority_callback s true cid lvl).1 true cid lvl).1 =
      (priority_callback s true cid lvl).1 := by
  have h1 := priority_callback_cases s cid lvl t h
  rw [if_neg (not_not_intro hs)] at h1
  have hget : get_ticket (priority_callback s true cid lvl).1 cid =
      some { t with priority := some lvl } := by
    rw [h1]
    rw [get_update_eq (f := fun u => { u with priority := some lvl }) _ _ (fun u => rfl), h]
    rfl
  have h2 := priority_callback_cases (priority_callback s true cid lvl).1 cid lvl
    { t with priority := some lvl } hget
  rw [if_neg (not_not_intro hs)] at h2
  refine ⟨by rw [h1], ?_, by rw [h2], ?_⟩
  · unfold priority_of
    rw [hget]
    rfl
  · rw [h2, h1]
    rw [update_update (f := fun u => { u with priority := some lvl })
      (g := fun u => { u with priority := some lvl }) _ _ (fun u => rfl)]

/-- C8 witness: setting priority "high" twice on the concrete open ticket —
the second application returns success and leaves the store identical. -/
theorem C8_set_priority_idempotent_witness :
    (priority_callback ⟨[], [sampleTicket]⟩ true 10 "high").2 = .updated ∧
    priority_of (priority_callback ⟨[], [sampleTicket]⟩ true 10 "high").1 10 =
      some (some "high") ∧
    (priority_callback (priority_callback ⟨[], [sampleTicket]⟩ true 10 "high").1
      true 10 "high").2 = .updated ∧
    (priority_callback (priority_callback ⟨[], [sampleTicket]⟩ true 10 "high").1
      true 10 "high").1 = (priority_callback ⟨[], [sampleTicket]⟩ true 10 "high").1 :=
  C8_set_priority_idempotent ⟨[], [sampleTicket]⟩ 10 "high" sampleTicket
    (by decide) (by decide)

/-- C9 counterexample: a bot-authored message in a channel that has a ticket
row does not update last_activity — the handler returns before any DB access
(`message.author.bot` guard), so the update is not unconditional in the
message author. -/
theorem C9_bot_message_ignored :
    on_message ⟨[], [sampleTicket]⟩ true true true 10 777 = ⟨[], [sampleTicket]⟩ ∧
    activity_of (on_message ⟨[], [sampleTicket]⟩ true true true 10 777) 10 =
      some 150 := by
  decide

/-- C9 (amended): for every non-bot-authored guild message in a channel that
has a ticket row, the handler updates that row's last_activity to the message
time regardless of the author's staff status and of the ticket's status;
bot-authored messages (and messages outside a guild) are ignored entirely. -/
theorem C9_activity_updated_nonbot (s : Store) (sf : Bool) (cid now : Nat)
    (t : Ticket) (h : get_ticket s cid = some t) :
    activity_of (on_message s true false sf cid now) cid = some now := by
  rw [on_message_cases s sf cid now t h]
  by_cases hc : t.status = "open" ∧ sf = true ∧ t.first_staff_response_seconds = none
  · rw [if_pos hc]
    rw [activity_of_update
      (f := fun u => { u with first_staff_response_seconds := some (now - t.created_at) })
      _ _ _ (fun u => rfl) (fun u => rfl)]
    unfold activity_of
    rw [get_update_eq (f := fun u => { u with last_activity := now }) _ _ (fun u => rfl), h]
    rfl
  · rw [if_neg hc]
    unfold activity_of
    rw [get_update_eq (f := fun u => { u with last_activity := now }) _ _ (fun u => rfl), h]
    rfl

/-- C9 witness: a non-staff message in a closed ticket still updates
last_activity. -/
theorem C9_activity_updated_nonbot_witness :
    activity_of (on_message ⟨[], [{ sampleTicket with status := "closed" }]⟩
      true false false 10 777) 10 = some 777 :=
  C9_activity_updated_nonbot ⟨[], [{ sampleTicket with status := "closed" }]⟩
    false 10 777 { sampleTicket with status := "closed" } (by decide)

/-- C10: claim and set-priority are atomic rejections on non-open tickets:
whenever the row is missing or its status is not 'open', both handlers leave
the store exactly as it was — every field of every row untouched — and
return a rejection (the not-staff rejection for a non-staff actor, otherwise
the not-found-or-not-open rejection). -/
theorem C10_non_open_rejected (s : Store) (a : Nat) (sf : Bool) (cid : Nat)
    (lvl : String) (h : status_of s cid ≠ some "open") :
    (claim_callback s a sf cid).1 = s ∧
    (claim_callback s a sf cid).2 =
      (if sf then ClaimResult.notOpen else ClaimResult.notStaff) ∧
    (priority_callback s sf cid lvl).1 = s ∧
    (priority_callback s sf cid lvl).2 =
      (if sf then PriorityResult.notOpen else PriorityResult.notStaff) := by
  cases sf with
  | false => exact ⟨rfl, rfl, rfl, rfl⟩
  | true =>
    cases hg : get_ticket s cid with
    | none =>
      refine ⟨?_, ?_, ?_, ?_⟩ <;> simp [claim_callback, priority_callback, hg]
    | some t =>
      have hsome : status_of s cid = some t.status := by
        unfold status_of
        rw [hg]
        rfl
      have hts : t.status ≠ "open" := by
        intro he
        exact h (by rw [hsome, he])
      refine ⟨?_, ?_, ?_, ?_⟩ <;>
        simp [claim_callback_cases s a cid t hg,
          priority_callback_cases s cid lvl t hg, hts]

/-- C10 witness: both handlers at a concrete closed ticket — store untouched
and both rejections returned. -/
theorem C10_non_open_rejected_witness :
    (claim_callback ⟨[], [{ sampleTicket with status := "closed" }]⟩ 7 true 10).1 =
      ⟨[], [{ sampleTicket with status := "closed" }]⟩ ∧
    (claim_callback ⟨[], [{ sampleTicket with status := "closed" }]⟩ 7 true 10).2 =
      (if true then ClaimResult.notOpen else ClaimResult.notStaff) ∧
    (priority_callback ⟨[], [{ sampleTicket with status := "closed" }]⟩
      true 10 "high").1 = ⟨[], [{ sampleTicket with status := "closed" }]⟩ ∧
    (priority_callback ⟨[], [{ sampleTicket with status := "closed" }]⟩
      true 10 "high").2 =
      (if true then PriorityResult.notOpen else PriorityResult.notStaff) :=
  C10_non_open_rejected ⟨[], [{ sampleTicket with status := "closed" }]⟩
    7 true 10 "high" (by decide)

end TicketBot
